import Mathlib

/-!
Shallow embedding of the Dumpulse UDP client (`client.py`) and proofs about
its packet codec, checksum unit and request engine.

Bytes are modelled as natural numbers (each in `[0, 256)` where the source
guarantees it); byte buffers as `List Nat`.  Fallible Python code (raising
`struct.error` / `ValueError`) is modelled with `Except`; the error
conditions are named after the spec's error taxonomy.
-/

namespace Dumpulse

/-- Source line `query_packet = b"AreyouOK"`: the fixed 8-byte query sent to the server. -/
def query_packet : List Nat := [65, 114, 101, 121, 111, 117, 79, 75]

/-- Model of `_variable_settings(p)`: for `v in range(len(p)//4 - 1)`, unpack
`">HBB"` from `p[4*(v+1):][:4]`, yielding
`(v, timestamp, sender, value)` with a big-endian 16-bit timestamp. -/
def _variable_settings (p : List Nat) : List (Nat × Nat × Nat × Nat) :=
  (List.range (p.length / 4 - 1)).map (fun v =>
    let r := (p.drop (4 * (v + 1))).take 4
    (v, 256 * r.getD 0 0 + r.getD 1 0, r.getD 2 0, r.getD 3 0))

/-- The mathematical Adler-32 of `zlib.adler32`: running sums `a` (init 1)
and `b` (init 0) modulo 65521, result `b * 2^16 + a`. -/
def zlibAdler32 (data : List Nat) : Nat :=
  let s := data.foldl
    (fun s c => ((s.1 + c) % 65521, (s.2 + (s.1 + c) % 65521) % 65521))
    (1, 0)
  s.2 * 65536 + s.1

/-- Model of `adler32(data)`: the source normalizes the library result with
`% 2**32` so it is unsigned on every host. -/
def adler32 (data : List Nat) : Nat := zlibAdler32 data % 2 ^ 32

/-- Error taxonomy of the decoder, named after the spec:
`MalformedPacket` models the `struct.error` raised by
`struct.unpack(">L", p[:4])` on a buffer shorter than 4 bytes;
`InvalidChecksum` models the `ValueError(bytes, expected, received)`
raised by `variable_settings`. -/
inductive DecodeError
  | MalformedPacket
  | InvalidChecksum (bytes : List Nat) (expected received : Nat)
deriving DecidableEq

/-- Model of `struct.unpack(">L", bs)`: big-endian unsigned 32-bit value of a
4-byte buffer. -/
def unpackBE32 (bs : List Nat) : Nat :=
  bs.foldl (fun acc c => 256 * acc + c) 0

/-- Model of `struct.pack(">L", n)` for `n < 2^32`: the 4 big-endian bytes of `n`. -/
def packBE32 (n : Nat) : List Nat :=
  [n / 2 ^ 24 % 256, n / 2 ^ 16 % 256, n / 2 ^ 8 % 256, n % 256]

/-- Model of `parse_health_report(p)`: split off the 4-byte checksum field
(`struct.unpack(">L", p[:4])`, which raises when `len(p) < 4`) and return
the lenient triple `(settings, expected, received)` where
`expected = adler32(p[4:])`. -/
def parse_health_report (p : List Nat) :
    Except DecodeError (List (Nat × Nat × Nat × Nat) × Nat × Nat) :=
  if p.length < 4 then
    Except.error DecodeError.MalformedPacket
  else
    Except.ok (_variable_settings p, adler32 (p.drop 4), unpackBE32 (p.take 4))

/-- Model of `variable_settings(p)`: the strict decoder; raises
`ValueError(health_report_bytes, expected, received)` when
`expected != received`, otherwise returns the settings list. -/
def variable_settings (p : List Nat) :
    Except DecodeError (List (Nat × Nat × Nat × Nat)) :=
  match parse_health_report p with
  | Except.error e => Except.error e
  | Except.ok (settings, expected, received) =>
    if expected ≠ received then
      Except.error (DecodeError.InvalidChecksum p expected received)
    else
      Except.ok settings

/-- The spec's `InvalidFieldRange` condition: `struct.pack("BBBB", ...)`
raises `struct.error` when a field is outside `[0, 255]`. -/
inductive EncodeError
  | InvalidFieldRange
deriving DecidableEq

/-- The range check of Python's `struct.pack` format `"B"`. -/
def inByteRange (x : Int) : Bool := 0 ≤ x && x ≤ 255

/-- Model of `set_packet(variable, sender, value)`:
`struct.pack("BBBB", 0xf1, variable, sender, value)` prefixed by
`struct.pack(">L", adler32(payload))`.  Fields are Python integers; the
pack raises when one is outside a byte's range. -/
def set_packet (var sender value : Int) : Except EncodeError (List Nat) :=
  if inByteRange var && inByteRange sender && inByteRange value then
    let payload := [0xf1, var.toNat, sender.toNat, value.toNat]
    Except.ok (packBE32 (adler32 payload) ++ payload)
  else
    Except.error EncodeError.InvalidFieldRange

/-- Model of `set_variable(socket, variable, sender, value)`: builds the packet and
sends it.  The result records the outcome and the list of buffers passed
to `socket.send`; when `set_packet` raises, the exception propagates
before any send happens. -/
def set_variable (var sender value : Int) :
    Except EncodeError Unit × List (List Nat) :=
  match set_packet var sender value with
  | Except.error e => (Except.error e, [])
  | Except.ok pkt => (Except.ok (), [pkt])

/-- What the datagram channel does on one attempt of the retry loop:
`recv` returns bytes, `socket.timeout` is raised, or some other fault
(any unexpected exception during send or receive) propagates. -/
inductive Outcome
  | timeout
  | reply (p : List Nat)
  | fault
deriving DecidableEq

/-- Source line `retry_interval, retry_delay_factor, max_retry_interval = 0.25, 1.4142, 16`
(seconds, modelled as exact rationals). -/
def retry_interval0 : ℚ := 25 / 100

/-- The backoff multiplier `1.4142`. -/
def retry_delay_factor : ℚ := 14142 / 10000

/-- The retry-interval ceiling `16`. -/
def max_retry_interval : ℚ := 16

/-- One run of the `while True` loop of `get_health_report`, with fuel
(the loop is written as an unbounded `while True`; the theorems show it
exits long before any reasonable fuel runs out).  Arguments: the channel
behaviour, remaining fuel, the attempt counter, the current
`retry_interval` and the channel's current timeout setting.  Returns the
result (`Except.error ()` = a fault propagated out of the loop,
`Except.ok none` = gave up, `Except.ok (some p)` = bytes received), the
channel's timeout setting when the loop is left, and the list of buffers
passed to `socket.send`, one per attempt. -/
def ghrLoop (chan : Nat → Outcome) :
    Nat → Nat → ℚ → Option ℚ →
      Except Unit (Option (List Nat)) × Option ℚ × List (List Nat)
  | 0, _, _, cur => (Except.ok none, cur, [])
  | fuel + 1, n, interval, _cur =>
    -- socket_object.settimeout(retry_interval)
    let cur := some interval
    match chan n with
    | Outcome.reply p => (Except.ok (some p), cur, [query_packet])
    | Outcome.fault => (Except.error (), cur, [query_packet])
    | Outcome.timeout =>
      let interval2 := interval * retry_delay_factor
      if interval2 > max_retry_interval then
        (Except.ok none, cur, [query_packet])
      else
        let r := ghrLoop chan fuel (n + 1) interval2 cur
        (r.1, r.2.1, query_packet :: r.2.2)

/-- Fuel for the loop; the proofs show at most 13 iterations ever run. -/
def ghrFuel : Nat := 1000

/-- Model of `get_health_report(socket_object)`: saves `socket_object.gettimeout()`,
runs the retry loop, and in the `finally` block restores the saved
timeout on every exit path.  Input: the channel behaviour and the
channel's timeout setting before the call; output: the loop's result,
the channel's timeout setting after the call returns or raises, and the
buffers sent. -/
def get_health_report (chan : Nat → Outcome) (t0 : Option ℚ) :
    Except Unit (Option (List Nat)) × Option ℚ × List (List Nat) :=
  let timeout := t0          -- timeout = socket_object.gettimeout()
  let r := ghrLoop chan ghrFuel 0 retry_interval0 t0
  (r.1, timeout, r.2.2)      -- finally: socket_object.settimeout(timeout)

/-! ## Helper lemmas -/

/-- Big-endian pack/unpack round-trip for 32-bit values. -/
theorem unpackBE32_packBE32 (n : Nat) (h : n < 2 ^ 32) :
    unpackBE32 (packBE32 n) = n := by
  simp only [unpackBE32, packBE32, List.foldl]
  omega

/-- The checksum is always below `2^32`. -/
theorem adler32_lt (b : List Nat) : adler32 b < 2 ^ 32 :=
  Nat.mod_lt _ (by norm_num)

/-! ## Claims -/

/-- C6: `adler32` is deterministic, accepts every byte sequence including
the empty one, always returns a value in `[0, 2^32)`, and is the
underlying library checksum normalized by an unsigned modulus `2^32`. -/
theorem adler32_unsigned (b b2 : List Nat) :
    (b = b2 → adler32 b = adler32 b2) ∧
    adler32 b < 2 ^ 32 ∧
    adler32 b = zlibAdler32 b % 2 ^ 32 :=
  ⟨fun h => by rw [h], adler32_lt b, rfl⟩

/-- Witness for C6 at concrete inputs: the empty byte sequence. -/
theorem adler32_unsigned_witness :
    (([] : List Nat) = [] → adler32 [] = adler32 []) ∧
    adler32 [] < 2 ^ 32 ∧
    adler32 [] = zlibAdler32 [] % 2 ^ 32 :=
  adler32_unsigned [] []

/-- C8: a buffer shorter than 4 bytes (too short for the checksum field)
makes both the lenient and the strict decoder fail with
`MalformedPacket`; no partial result is returned. -/
theorem short_buffer_malformed (p : List Nat) (h : p.length < 4) :
    parse_health_report p = Except.error DecodeError.MalformedPacket ∧
    variable_settings p = Except.error DecodeError.MalformedPacket := by
  have h1 : parse_health_report p = Except.error DecodeError.MalformedPacket := by
    simp [parse_health_report, h]
  exact ⟨h1, by simp [variable_settings, h1]⟩

/-- Witness for C8: a 3-byte buffer. -/
theorem short_buffer_malformed_witness :
    ([1, 2, 3] : List Nat).length < 4 ∧
    (parse_health_report [1, 2, 3] = Except.error DecodeError.MalformedPacket ∧
      variable_settings [1, 2, 3] = Except.error DecodeError.MalformedPacket) :=
  ⟨by decide, short_buffer_malformed [1, 2, 3] (by decide)⟩

/-- C2: for in-range fields the encoder succeeds with an 8-byte packet
whose bytes 4–7 are `(0xF1, variable, sender, value)` and whose bytes
0–3 are the big-endian unsigned 32-bit checksum of those 4 payload
bytes. -/
theorem set_packet_layout (var sender value : Int)
    (h : 0 ≤ var ∧ var ≤ 255 ∧ 0 ≤ sender ∧ sender ≤ 255 ∧
      0 ≤ value ∧ value ≤ 255) :
    ∃ pkt, set_packet var sender value = Except.ok pkt ∧
      pkt.length = 8 ∧
      pkt.drop 4 = [0xf1, var.toNat, sender.toNat, value.toNat] ∧
      unpackBE32 (pkt.take 4) =
        adler32 [0xf1, var.toNat, sender.toNat, value.toNat] := by
  obtain ⟨h1, h2, h3, h4, h5, h6⟩ := h
  have hb : (inByteRange var && inByteRange sender && inByteRange value) = true := by
    simp [inByteRange]
    omega
  refine ⟨packBE32 (adler32 [0xf1, var.toNat, sender.toNat, value.toNat]) ++
      [0xf1, var.toNat, sender.toNat, value.toNat], ?_, ?_, ?_, ?_⟩
  · simp [set_packet, hb]
  · simp [packBE32]
  · rfl
  · have : (packBE32 (adler32 [0xf1, var.toNat, sender.toNat, value.toNat]) ++
        [0xf1, var.toNat, sender.toNat, value.toNat]).take 4 =
        packBE32 (adler32 [0xf1, var.toNat, sender.toNat, value.toNat]) := rfl
    rw [this, unpackBE32_packBE32 _ (adler32_lt _)]

/-- Witness for C2 at variable=5, sender=76, value=200. -/
theorem set_packet_layout_witness :
    (0 ≤ (5 : Int) ∧ (5 : Int) ≤ 255 ∧ 0 ≤ (76 : Int) ∧ (76 : Int) ≤ 255 ∧
      0 ≤ (200 : Int) ∧ (200 : Int) ≤ 255) ∧
    ∃ pkt, set_packet 5 76 200 = Except.ok pkt ∧
      pkt.length = 8 ∧
      pkt.drop 4 = [0xf1, 5, 76, 200] ∧
      unpackBE32 (pkt.take 4) = adler32 [0xf1, 5, 76, 200] :=
  ⟨by decide, set_packet_layout 5 76 200 (by decide)⟩

/-- C5: decoding the bytes produced by the set-request encoder yields
equal expected and received checksums. -/
theorem set_packet_checksum_roundtrip (var sender value : Int) (pkt : List Nat)
    (h : set_packet var sender value = Except.ok pkt) :
    ∃ settings c, parse_health_report pkt = Except.ok (settings, c, c) := by
  unfold set_packet at h
  by_cases hb : (inByteRange var && inByteRange sender && inByteRange value) = true
  · rw [if_pos hb] at h
    obtain rfl : packBE32 (adler32 [0xf1, var.toNat, sender.toNat, value.toNat]) ++
        [0xf1, var.toNat, sender.toNat, value.toNat] = pkt := by
      simpa using h
    refine ⟨_variable_settings (packBE32 (adler32 [0xf1, var.toNat, sender.toNat, value.toNat]) ++
      [0xf1, var.toNat, sender.toNat, value.toNat]),
      adler32 [0xf1, var.toNat, sender.toNat, value.toNat], ?_⟩
    have hlen : ¬ (packBE32 (adler32 [0xf1, var.toNat, sender.toNat, value.toNat]) ++
        [0xf1, var.toNat, sender.toNat, value.toNat]).length < 4 := by
      simp [packBE32]
    rw [parse_health_report, if_neg hlen]
    have hdrop : (packBE32 (adler32 [0xf1, var.toNat, sender.toNat, value.toNat]) ++
        [0xf1, var.toNat, sender.toNat, value.toNat]).drop 4 =
        [0xf1, var.toNat, sender.toNat, value.toNat] := rfl
    have htake : (packBE32 (adler32 [0xf1, var.toNat, sender.toNat, value.toNat]) ++
        [0xf1, var.toNat, sender.toNat, value.toNat]).take 4 =
        packBE32 (adler32 [0xf1, var.toNat, sender.toNat, value.toNat]) := rfl
    rw [hdrop, htake, unpackBE32_packBE32 _ (adler32_lt _)]
  · rw [if_neg hb] at h
    exact absurd h (by simp)

/-- Witness for C5 at variable=5, sender=76, value=200. -/
theorem set_packet_checksum_roundtrip_witness :
    set_packet 5 76 200 =
      Except.ok (packBE32 (adler32 [0xf1, 5, 76, 200]) ++ [0xf1, 5, 76, 200]) ∧
    ∃ settings c,
      parse_health_report (packBE32 (adler32 [0xf1, 5, 76, 200]) ++ [0xf1, 5, 76, 200]) =
        Except.ok (settings, c, c) :=
  ⟨rfl, set_packet_checksum_roundtrip 5 76 200 _ rfl⟩

/-- C9: with a field outside `0–255` the encoder fails with
`InvalidFieldRange` and `set_variable` performs no send at all. -/
theorem set_variable_out_of_range_no_send (var sender value : Int)
    (h : ¬ (0 ≤ var ∧ var ≤ 255 ∧ 0 ≤ sender ∧ sender ≤ 255 ∧
      0 ≤ value ∧ value ≤ 255)) :
    set_variable var sender value = (Except.error EncodeError.InvalidFieldRange, []) := by
  have hb : (inByteRange var && inByteRange sender && inByteRange value) = false := by
    simp [inByteRange]
    omega
  simp [set_variable, set_packet, hb]

/-- Witness for C9 at variable=300 (out of range). -/
theorem set_variable_out_of_range_no_send_witness :
    ¬ (0 ≤ (300 : Int) ∧ (300 : Int) ≤ 255 ∧ 0 ≤ (76 : Int) ∧ (76 : Int) ≤ 255 ∧
      0 ≤ (0 : Int) ∧ (0 : Int) ≤ 255) ∧
    set_variable 300 76 0 = (Except.error EncodeError.InvalidFieldRange, []) :=
  ⟨by decide, set_variable_out_of_range_no_send 300 76 0 (by decide)⟩

/-- C3: the decoder parses `len(p)/4 - 1` consecutive 4-byte records
starting at byte 4; the `k`-th record is
`(k, big-endian 16-bit timestamp, sender, value)`; trailing bytes that do
not fill a record are dropped without error. -/
theorem _variable_settings_records (p : List Nat) (h : 4 ≤ p.length) :
    (_variable_settings p).length = p.length / 4 - 1 ∧
    ∀ k, k < p.length / 4 - 1 →
      (_variable_settings p).getD k (0, 0, 0, 0) =
        (k, 256 * p.getD (4 * k + 4) 0 + p.getD (4 * k + 5) 0,
          p.getD (4 * k + 6) 0, p.getD (4 * k + 7) 0) := by
  constructor
  · simp [_variable_settings]
  · intro k hk
    simp only [_variable_settings, List.getD_eq_getElem?_getD, List.getElem?_map,
      List.getElem?_range hk, Option.map_some', Option.getD_some]
    have e0 : 4 * (k + 1) + 0 = 4 * k + 4 := by ring
    have e1 : 4 * (k + 1) + 1 = 4 * k + 5 := by ring
    have e2 : 4 * (k + 1) + 2 = 4 * k + 6 := by ring
    have e3 : 4 * (k + 1) + 3 = 4 * k + 7 := by ring
    simp only [List.getElem?_take, List.getElem?_drop, e0, e1, e2, e3]
    norm_num

/-- Witness for C3: a 10-byte packet (4-byte checksum field plus a 6-byte
body) — one complete record, two trailing bytes dropped. -/
theorem _variable_settings_records_witness :
    4 ≤ ([0, 0, 0, 0, 1, 2, 3, 4, 9, 9] : List Nat).length ∧
    ((_variable_settings [0, 0, 0, 0, 1, 2, 3, 4, 9, 9]).length =
        ([0, 0, 0, 0, 1, 2, 3, 4, 9, 9] : List Nat).length / 4 - 1 ∧
      ∀ k, k < ([0, 0, 0, 0, 1, 2, 3, 4, 9, 9] : List Nat).length / 4 - 1 →
        (_variable_settings [0, 0, 0, 0, 1, 2, 3, 4, 9, 9]).getD k (0, 0, 0, 0) =
          (k, 256 * ([0, 0, 0, 0, 1, 2, 3, 4, 9, 9] : List Nat).getD (4 * k + 4) 0 +
              ([0, 0, 0, 0, 1, 2, 3, 4, 9, 9] : List Nat).getD (4 * k + 5) 0,
            ([0, 0, 0, 0, 1, 2, 3, 4, 9, 9] : List Nat).getD (4 * k + 6) 0,
            ([0, 0, 0, 0, 1, 2, 3, 4, 9, 9] : List Nat).getD (4 * k + 7) 0)) :=
  ⟨by decide, _variable_settings_records [0, 0, 0, 0, 1, 2, 3, 4, 9, 9] (by decide)⟩

/-- C1: on a buffer long enough to carry the checksum field, the strict
decoder fails with `InvalidChecksum` carrying the raw bytes, the computed
(expected) and the embedded (received) checksum exactly when the two
differ, and returns the decoded settings list when they are equal. -/
theorem variable_settings_strict (p : List Nat) (h : 4 ≤ p.length) :
    (variable_settings p =
        Except.error (DecodeError.InvalidChecksum p (adler32 (p.drop 4)) (unpackBE32 (p.take 4))) ↔
      adler32 (p.drop 4) ≠ unpackBE32 (p.take 4)) ∧
    (adler32 (p.drop 4) = unpackBE32 (p.take 4) →
      variable_settings p = Except.ok (_variable_settings p)) := by
  have hlt : ¬ p.length < 4 := by omega
  by_cases hc : adler32 (p.drop 4) = unpackBE32 (p.take 4)
  · refine ⟨?_, fun _ => ?_⟩
    · simp [variable_settings, parse_health_report, hlt, hc]
    · simp [variable_settings, parse_health_report, hlt, hc]
  · refine ⟨?_, fun h2 => absurd h2 hc⟩
    simp [variable_settings, parse_health_report, hlt, hc]

/-- Witness for C1: the all-zero 4-byte buffer carries checksum 0 but the
checksum of its empty body is 1, so the strict decoder rejects it. -/
theorem variable_settings_strict_witness :
    4 ≤ ([0, 0, 0, 0] : List Nat).length ∧
    variable_settings [0, 0, 0, 0] =
      Except.error (DecodeError.InvalidChecksum [0, 0, 0, 0] 1 0) :=
  ⟨by decide, (variable_settings_strict [0, 0, 0, 0] (by decide)).1.mpr (by decide)⟩

/-- The loop only ever inspects the channel, so a channel that always
times out behaves like the constant-timeout channel. -/
theorem ghrLoop_congr (chan : Nat → Outcome) (h : ∀ n, chan n = Outcome.timeout) :
    ∀ fuel n interval cur,
      ghrLoop chan fuel n interval cur =
        ghrLoop (fun _ => Outcome.timeout) fuel n interval cur := by
  intro fuel
  induction fuel with
  | zero => intro n i c; rfl
  | succ fuel ih =>
    intro n i c
    simp only [ghrLoop, h n]
    by_cases hc : i * retry_delay_factor > max_retry_interval
    · simp [hc]
    · simp [hc, ih]

/-- On a timing-out attempt whose grown interval stays at or below the
ceiling, the loop retries with the grown interval, prepending one send. -/
theorem ghrLoop_step_retry (chan : Nat → Outcome) (fuel n : Nat) (i : ℚ)
    (c : Option ℚ) (hn : chan n = Outcome.timeout)
    (hle : ¬ i * retry_delay_factor > max_retry_interval) :
    ghrLoop chan (fuel + 1) n i c =
      ((ghrLoop chan fuel (n + 1) (i * retry_delay_factor) (some i)).1,
        (ghrLoop chan fuel (n + 1) (i * retry_delay_factor) (some i)).2.1,
        query_packet ::
          (ghrLoop chan fuel (n + 1) (i * retry_delay_factor) (some i)).2.2) := by
  simp only [ghrLoop, hn, if_neg hle]

/-- On a timing-out attempt whose grown interval exceeds the ceiling,
the loop gives up at once with a no-response outcome. -/
theorem ghrLoop_step_giveup (chan : Nat → Outcome) (fuel n : Nat) (i : ℚ)
    (c : Option ℚ) (hn : chan n = Outcome.timeout)
    (hgt : i * retry_delay_factor > max_retry_interval) :
    ghrLoop chan (fuel + 1) n i c = (Except.ok none, some i, [query_packet]) := by
  simp only [ghrLoop, hn, if_pos hgt]

/-- Evaluation of the loop against the constant-timeout channel: it runs
12 retries and gives up on the 13th attempt, when the interval grown
from 250 ms by factor 1.4142 first exceeds 16 s. -/
theorem ghrLoop_timeout_eval (t0 : Option ℚ) :
    ghrLoop (fun _ => Outcome.timeout) ghrFuel 0 retry_interval0 t0 =
      (Except.ok none, some ((7071 : ℚ) ^ 12 / (4 * 5000 ^ 12)), List.replicate 13 query_packet) := by
  have e12 : ghrLoop (fun _ => Outcome.timeout) 988 12 ((7071 : ℚ) ^ 12 / (4 * 5000 ^ 12)) (some ((7071 : ℚ) ^ 11 / (4 * 5000 ^ 11))) =
      (Except.ok none, some ((7071 : ℚ) ^ 12 / (4 * 5000 ^ 12)), List.replicate 1 query_packet) :=
    ghrLoop_step_giveup _ 987 12 _ _ rfl (by
      norm_num [retry_delay_factor, max_retry_interval])
  have e11 : ghrLoop (fun _ => Outcome.timeout) 989 11 ((7071 : ℚ) ^ 11 / (4 * 5000 ^ 11)) (some ((7071 : ℚ) ^ 10 / (4 * 5000 ^ 10))) =
      (Except.ok none, some ((7071 : ℚ) ^ 12 / (4 * 5000 ^ 12)), List.replicate 2 query_packet) := by
    rw [ghrLoop_step_retry _ 988 11 _ _ rfl (by
      norm_num [retry_delay_factor, max_retry_interval]),
      show ((7071 : ℚ) ^ 11 / (4 * 5000 ^ 11)) * retry_delay_factor = ((7071 : ℚ) ^ 12 / (4 * 5000 ^ 12)) from by
        norm_num [retry_delay_factor],
      e12]
    rfl
  have e10 : ghrLoop (fun _ => Outcome.timeout) 990 10 ((7071 : ℚ) ^ 10 / (4 * 5000 ^ 10)) (some ((7071 : ℚ) ^ 9 / (4 * 5000 ^ 9))) =
      (Except.ok none, some ((7071 : ℚ) ^ 12 / (4 * 5000 ^ 12)), List.replicate 3 query_packet) := by
    rw [ghrLoop_step_retry _ 989 10 _ _ rfl (by
      norm_num [retry_delay_factor, max_retry_interval]),
      show ((7071 : ℚ) ^ 10 / (4 * 5000 ^ 10)) * retry_delay_factor = ((7071 : ℚ) ^ 11 / (4 * 5000 ^ 11)) from by
        norm_num [retry_delay_factor],
      e11]
    rfl
  have e9 : ghrLoop (fun _ => Outcome.timeout) 991 9 ((7071 : ℚ) ^ 9 / (4 * 5000 ^ 9)) (some ((7071 : ℚ) ^ 8 / (4 * 5000 ^ 8))) =
      (Except.ok none, some ((7071 : ℚ) ^ 12 / (4 * 5000 ^ 12)), List.replicate 4 query_packet) := by
    rw [ghrLoop_step_retry _ 990 9 _ _ rfl (by
      norm_num [retry_delay_factor, max_retry_interval]),
      show ((7071 : ℚ) ^ 9 / (4 * 5000 ^ 9)) * retry_delay_factor = ((7071 : ℚ) ^ 10 / (4 * 5000 ^ 10)) from by
        norm_num [retry_delay_factor],
      e10]
    rfl
  have e8 : ghrLoop (fun _ => Outcome.timeout) 992 8 ((7071 : ℚ) ^ 8 / (4 * 5000 ^ 8)) (some ((7071 : ℚ) ^ 7 / (4 * 5000 ^ 7))) =
      (Except.ok none, some ((7071 : ℚ) ^ 12 / (4 * 5000 ^ 12)), List.replicate 5 query_packet) := by
    rw [ghrLoop_step_retry _ 991 8 _ _ rfl (by
      norm_num [retry_delay_factor, max_retry_interval]),
      show ((7071 : ℚ) ^ 8 / (4 * 5000 ^ 8)) * retry_delay_factor = ((7071 : ℚ) ^ 9 / (4 * 5000 ^ 9)) from by
        norm_num [retry_delay_factor],
      e9]
    rfl
  have e7 : ghrLoop (fun _ => Outcome.timeout) 993 7 ((7071 : ℚ) ^ 7 / (4 * 5000 ^ 7)) (some ((7071 : ℚ) ^ 6 / (4 * 5000 ^ 6))) =
      (Except.ok none, some ((7071 : ℚ) ^ 12 / (4 * 5000 ^ 12)), List.replicate 6 query_packet) := by
    rw [ghrLoop_step_retry _ 992 7 _ _ rfl (by
      norm_num [retry_delay_factor, max_retry_interval]),
      show ((7071 : ℚ) ^ 7 / (4 * 5000 ^ 7)) * retry_delay_factor = ((7071 : ℚ) ^ 8 / (4 * 5000 ^ 8)) from by
        norm_num [retry_delay_factor],
      e8]
    rfl
  have e6 : ghrLoop (fun _ => Outcome.timeout) 994 6 ((7071 : ℚ) ^ 6 / (4 * 5000 ^ 6)) (some ((7071 : ℚ) ^ 5 / (4 * 5000 ^ 5))) =
      (Except.ok none, some ((7071 : ℚ) ^ 12 / (4 * 5000 ^ 12)), List.replicate 7 query_packet) := by
    rw [ghrLoop_step_retry _ 993 6 _ _ rfl (by
      norm_num [retry_delay_factor, max_retry_interval]),
      show ((7071 : ℚ) ^ 6 / (4 * 5000 ^ 6)) * retry_delay_factor = ((7071 : ℚ) ^ 7 / (4 * 5000 ^ 7)) from by
        norm_num [retry_delay_factor],
      e7]
    rfl
  have e5 : ghrLoop (fun _ => Outcome.timeout) 995 5 ((7071 : ℚ) ^ 5 / (4 * 5000 ^ 5)) (some ((7071 : ℚ) ^ 4 / (4 * 5000 ^ 4))) =
      (Except.ok none, some ((7071 : ℚ) ^ 12 / (4 * 5000 ^ 12)), List.replicate 8 query_packet) := by
    rw [ghrLoop_step_retry _ 994 5 _ _ rfl (by
      norm_num [retry_delay_factor, max_retry_interval]),
      show ((7071 : ℚ) ^ 5 / (4 * 5000 ^ 5)) * retry_delay_factor = ((7071 : ℚ) ^ 6 / (4 * 5000 ^ 6)) from by
        norm_num [retry_delay_factor],
      e6]
    rfl
  have e4 : ghrLoop (fun _ => Outcome.timeout) 996 4 ((7071 : ℚ) ^ 4 / (4 * 5000 ^ 4)) (some ((7071 : ℚ) ^ 3 / (4 * 5000 ^ 3))) =
      (Except.ok none, some ((7071 : ℚ) ^ 12 / (4 * 5000 ^ 12)), List.replicate 9 query_packet) := by
    rw [ghrLoop_step_retry _ 995 4 _ _ rfl (by
      norm_num [retry_delay_factor, max_retry_interval]),
      show ((7071 : ℚ) ^ 4 / (4 * 5000 ^ 4)) * retry_delay_factor = ((7071 : ℚ) ^ 5 / (4 * 5000 ^ 5)) from by
        norm_num [retry_delay_factor],
      e5]
    rfl
  have e3 : ghrLoop (fun _ => Outcome.timeout) 997 3 ((7071 : ℚ) ^ 3 / (4 * 5000 ^ 3)) (some ((7071 : ℚ) ^ 2 / (4 * 5000 ^ 2))) =
      (Except.ok none, some ((7071 : ℚ) ^ 12 / (4 * 5000 ^ 12)), List.replicate 10 query_packet) := by
    rw [ghrLoop_step_retry _ 996 3 _ _ rfl (by
      norm_num [retry_delay_factor, max_retry_interval]),
      show ((7071 : ℚ) ^ 3 / (4 * 5000 ^ 3)) * retry_delay_factor = ((7071 : ℚ) ^ 4 / (4 * 5000 ^ 4)) from by
        norm_num [retry_delay_factor],
      e4]
    rfl
  have e2 : ghrLoop (fun _ => Outcome.timeout) 998 2 ((7071 : ℚ) ^ 2 / (4 * 5000 ^ 2)) (some ((7071 : ℚ) ^ 1 / (4 * 5000 ^ 1))) =
      (Except.ok none, some ((7071 : ℚ) ^ 12 / (4 * 5000 ^ 12)), List.replicate 11 query_packet) := by
    rw [ghrLoop_step_retry _ 997 2 _ _ rfl (by
      norm_num [retry_delay_factor, max_retry_interval]),
      show ((7071 : ℚ) ^ 2 / (4 * 5000 ^ 2)) * retry_delay_factor = ((7071 : ℚ) ^ 3 / (4 * 5000 ^ 3)) from by
        norm_num [retry_delay_factor],
      e3]
    rfl
  have e1 : ghrLoop (fun _ => Outcome.timeout) 999 1 ((7071 : ℚ) ^ 1 / (4 * 5000 ^ 1)) (some retry_interval0) =
      (Except.ok none, some ((7071 : ℚ) ^ 12 / (4 * 5000 ^ 12)), List.replicate 12 query_packet) := by
    rw [ghrLoop_step_retry _ 998 1 _ _ rfl (by
      norm_num [retry_delay_factor, max_retry_interval]),
      show ((7071 : ℚ) ^ 1 / (4 * 5000 ^ 1)) * retry_delay_factor = ((7071 : ℚ) ^ 2 / (4 * 5000 ^ 2)) from by
        norm_num [retry_delay_factor],
      e2]
    rfl
  rw [show ghrFuel = 1000 from rfl,
    ghrLoop_step_retry _ 999 0 _ _ rfl (by
      norm_num [retry_interval0, retry_delay_factor, max_retry_interval]),
    show retry_interval0 * retry_delay_factor = ((7071 : ℚ) ^ 1 / (4 * 5000 ^ 1)) from by
      norm_num [retry_interval0, retry_delay_factor],
    e1]
  rfl


/-- C4: against a channel that always times out, the engine starts at
250 ms, multiplies the interval by 1.4142 per timeout, and gives up with
a no-response outcome (`none`) as soon as the grown interval exceeds the
16 s ceiling — after exactly 13 send attempts, far below the fuel bound,
so the growth of the interval is itself what terminates the loop. -/
theorem get_health_report_gives_up (chan : Nat → Outcome) (t0 : Option ℚ)
    (h : ∀ n, chan n = Outcome.timeout) :
    (get_health_report chan t0).1 = Except.ok none ∧
    (get_health_report chan t0).2.2.length = 13 := by
  have e : get_health_report chan t0 = get_health_report (fun _ => Outcome.timeout) t0 := by
    unfold get_health_report
    rw [ghrLoop_congr chan h]
  rw [e]
  unfold get_health_report
  rw [ghrLoop_timeout_eval t0]
  simp

/-- Witness for C4: the constant-timeout channel. -/
theorem get_health_report_gives_up_witness :
    (∀ n : Nat, (fun _ : Nat => Outcome.timeout) n = Outcome.timeout) ∧
    (get_health_report (fun _ => Outcome.timeout) none).1 = Except.ok none ∧
    (get_health_report (fun _ => Outcome.timeout) none).2.2.length = 13 :=
  ⟨fun _ => rfl, get_health_report_gives_up (fun _ => Outcome.timeout) none (fun _ => rfl)⟩

/-- C7: whatever the channel does — reply, give-up after timeouts, or a
fault propagating out of send/receive — the engine leaves the channel's
timeout setting exactly as it found it, and every run ends in one of
those three exit paths. -/
theorem get_health_report_restores_timeout (chan : Nat → Outcome) (t0 : Option ℚ) :
    (get_health_report chan t0).2.1 = t0 ∧
    ((get_health_report chan t0).1 = Except.error () ∨
      (get_health_report chan t0).1 = Except.ok none ∨
      ∃ p, (get_health_report chan t0).1 = Except.ok (some p)) := by
  refine ⟨rfl, ?_⟩
  match hr : (get_health_report chan t0).1 with
  | Except.error () => exact Or.inl rfl
  | Except.ok none => exact Or.inr (Or.inl rfl)
  | Except.ok (some p) => exact Or.inr (Or.inr ⟨p, rfl⟩)

/-- Every buffer the loop passes to `send` is the fixed query packet. -/
theorem ghrLoop_sends (chan : Nat → Outcome) :
    ∀ fuel n interval cur s,
      s ∈ (ghrLoop chan fuel n interval cur).2.2 → s = query_packet := by
  intro fuel
  induction fuel with
  | zero => intro n i c s hs; simp [ghrLoop] at hs
  | succ fuel ih =>
    intro n i c s hs
    simp only [ghrLoop] at hs
    match hc : chan n with
    | Outcome.reply p => rw [hc] at hs; simpa using hs
    | Outcome.fault => rw [hc] at hs; simpa using hs
    | Outcome.timeout =>
      rw [hc] at hs
      by_cases hgt : i * retry_delay_factor > max_retry_interval
      · rw [if_pos hgt] at hs; simpa using hs
      · rw [if_neg hgt] at hs
        rcases List.mem_cons.mp hs with h1 | h1
        · exact h1
        · exact ih _ _ _ s h1

/-- C10: on every attempt of the retry loop the engine sends exactly the
fixed 8-byte ASCII payload "AreyouOK", on the first attempt and on every
retry alike. -/
theorem get_health_report_sends_query (chan : Nat → Outcome) (t0 : Option ℚ)
    (s : List Nat) (hs : s ∈ (get_health_report chan t0).2.2) :
    s = query_packet ∧
    query_packet = "AreyouOK".data.map Char.toNat ∧
    query_packet.length = 8 :=
  ⟨ghrLoop_sends chan ghrFuel 0 retry_interval0 t0 s hs, by decide, by decide⟩

/-- Witness for C10: a channel replying on the first attempt sends the
query once. -/
theorem get_health_report_sends_query_witness :
    query_packet ∈ (get_health_report (fun _ => Outcome.reply []) none).2.2 ∧
    (query_packet = query_packet ∧
      query_packet = "AreyouOK".data.map Char.toNat ∧
      query_packet.length = 8) :=
  ⟨by decide, get_health_report_sends_query (fun _ => Outcome.reply []) none
    query_packet (by decide)⟩

end Dumpulse
